import Mathlib

/-!
Verification development for the helm install/upgrade test driver
(`pythonYAML/grerit.py`).  The Python source is shallowly embedded below:
pure text manipulation becomes Lean functions on `String`/`List Char`,
external command execution becomes oracles (`Nat → String` for the output of
successive invocations, or `Except Err String` results), and each polling
loop becomes a structurally recursive function returning the number of
predicate evaluations, the list of sleeps performed, and the outcome.
-/

/-- Error taxonomy of the driver.  In the Python source all four are raised
as `ValueError`/`TimeoutError`; the constructors record which raise site
produced the error (command failure in `execute_command`, poll-budget
exhaustion, the missing-baseline precondition in
`helm_upgrade_with_chart_archive`, and the post-create namespace check in
`create_namespace`). -/
inductive Err
  | commandExecutionError (msg : String)
  | timeoutError (msg : String)
  | preconditionError (msg : String)
  | namespaceCreateError (msg : String)
deriving DecidableEq

/-- Python `str.rstrip()`: drop trailing whitespace. -/
def pyRstrip (s : String) : String :=
  String.mk ((s.data.reverse.dropWhile (fun c => c.isWhitespace)).reverse)

/-- Split a character list at every occurrence of `sep`, keeping empty
chunks, as Python `str.split(sep)` does. -/
def splitCharL (sep : Char) : List Char → List (List Char)
  | [] => [[]]
  | c :: cs =>
    let r := splitCharL sep cs
    if c = sep then [] :: r
    else
      match r with
      | [] => [[c]]
      | h :: t => (c :: h) :: t

/-- Python `str.split(sep)` on strings (empty chunks kept). -/
def pySplitOn (sep : Char) (s : String) : List String :=
  (splitCharL sep s.data).map (fun l => String.mk l)

/-- Python `str.splitlines()` for newline-terminated tool output: split at
every line feed and drop the empty chunk a trailing line feed would
produce, so the empty string yields no lines. -/
def pySplitLines (s : String) : List String :=
  let parts := splitCharL ('\n') s.data
  let parts :=
    match parts.getLast? with
    | some [] => parts.dropLast
    | _ => parts
  parts.map (fun l => String.mk l)

/-- Python `str.split()` with no argument: split at whitespace runs,
discarding empty fields. -/
def pySplitWs (s : String) : List String :=
  let step := fun c (acc : List Char × List String) =>
    if c.isWhitespace then
      if acc.1.isEmpty then acc else ([], String.mk acc.1 :: acc.2)
    else (c :: acc.1, acc.2)
  let r := s.data.foldr step ([], [])
  if r.1.isEmpty then r.2 else String.mk r.1 :: r.2

/-- Decimal value of a digit run. -/
def digitsToNat (l : List Char) : Nat :=
  l.foldl (fun acc c => acc * 10 + (c.toNat - 48)) 0

/-- Python `int(s)` restricted to the shapes reachable from `str.split()`
fields: an optional sign followed by at least one decimal digit; anything
else raises, modelled as `none`. -/
def pyInt (s : String) : Option Int :=
  match s.data with
  | [] => none
  | '-' :: rest =>
    if rest ≠ [] ∧ rest.all (fun c => c.isDigit) then
      some (-(digitsToNat rest : Int))
    else none
  | '+' :: rest =>
    if rest ≠ [] ∧ rest.all (fun c => c.isDigit) then
      some ((digitsToNat rest : Int))
    else none
  | l =>
    if l.all (fun c => c.isDigit) then some ((digitsToNat l : Int)) else none

/-- One container status as observed on a pod (`cs.ready`). -/
structure ContainerStatus where
  ready : Bool
deriving DecidableEq

/-- One pod as observed (`i.status.phase`, `i.status.container_statuses`);
the Kubernetes client reports an absent status collection as `None`,
modelled by `none`, as distinct from an empty list. -/
structure Pod where
  phase : String
  container_statuses : Option (List ContainerStatus)
deriving DecidableEq

/-- Per-pod readiness term of the list comprehension in
`wait_for_all_pods_to_start`:
`i.status.phase == 'Running' and all([cs.ready for cs in i.status.container_statuses])`.
Iterating a `None` collection raises `TypeError`, modelled by `none`; the
`and` short-circuits, so a non-Running pod never iterates. -/
def pod_ready_flag (p : Pod) : Option Bool :=
  if p.phase = "Running" then
    match p.container_statuses with
    | none => none
    | some css => some (css.all (fun c => c.ready))
  else some false

/-- Evaluate the readiness term for every pod (the comprehension builds
the whole list; any raise aborts the evaluation). -/
def pods_ready_list : List Pod → Option (List Bool)
  | [] => some []
  | p :: ps =>
    match pod_ready_flag p, pods_ready_list ps with
    | some b, some bs => some (b :: bs)
    | _, _ => none

/-- The pod-readiness predicate of `wait_for_all_pods_to_start`:
`all([...])` over the per-pod readiness terms; `none` models a raised
`TypeError`. -/
def pods_all_running (pods : List Pod) : Option Bool :=
  (pods_ready_list pods).map (fun bs => bs.all (fun b => b))

/-- Outcome of a polling wait. -/
inductive PollOutcome
  | ok
  | timedOut
  | errored
  | diverged
deriving DecidableEq

/-- Observable behaviour of one polling wait: how many times the predicate
was evaluated, the sleeps performed in order, and the outcome. -/
structure PollStats where
  evals : Nat
  sleeps : List Nat
  outcome : PollOutcome
deriving DecidableEq

/-- The counter-based polling loop shared (as four near-identical copies)
by `helm_wait_for_deployed_release_to_appear`,
`wait_for_namespace_to_be_deleted`, `wait_for_all_pods_to_start` and
`wait_for_all_pods_to_terminate`:
evaluate the predicate; on success return; otherwise if `counter > 0`
decrement it and sleep `delay`, else raise the timeout.  `pred i` is the
i-th evaluation; `none` models a predicate evaluation that raises. -/
def pollLoopE (pred : Nat → Option Bool) (delay : Nat) : Nat → Nat → PollStats
  | counter, i =>
    match pred i with
    | none => ⟨1, [], PollOutcome.errored⟩
    | some true => ⟨1, [], PollOutcome.ok⟩
    | some false =>
      match counter with
      | 0 => ⟨1, [], PollOutcome.timedOut⟩
      | c + 1 =>
        let r := pollLoopE pred delay c (i + 1)
        ⟨r.evals + 1, delay :: r.sleeps, r.outcome⟩

/-- Wait for the `helm ls --deployed ... -q` output, rstripped, to equal
the expected release name; `counter = 20`, `time.sleep(15)`.  `lsOut i` is
the raw stdout of the i-th listing. -/
def helm_wait_for_deployed_release_to_appear
    (lsOut : Nat → String) (expected_release_name : String) : PollStats :=
  pollLoopE (fun i => some (pyRstrip (lsOut i) == expected_release_name)) 15 20 0

/-- `KubernetesClient.find_namespace`: first namespace whose name matches,
`None` otherwise. -/
def find_namespace (namespaces : List String) (namespace_name : String) :
    Option String :=
  namespaces.find? (fun x => x == namespace_name)

/-- `KubernetesClient.create_namespace`: after issuing the create, re-query;
raise if the namespace still does not appear.  `existing` is the namespace
listing seen by the post-create lookup. -/
def create_namespace (existing : List String) (namespace_name : String) :
    Except Err String :=
  match find_namespace existing namespace_name with
  | none =>
    Except.error (Err.namespaceCreateError
      ("Failed to create namespace: " ++ namespace_name))
  | some ns => Except.ok ns

/-- `KubernetesClient.wait_for_namespace_to_be_deleted`: poll until
`find_namespace` reports absence; `counter = 60`, `time.sleep(15)`. -/
def wait_for_namespace_to_be_deleted
    (namespaceLists : Nat → List String) (namespace_name : String) : PollStats :=
  pollLoopE
    (fun i => some (find_namespace (namespaceLists i) namespace_name).isNone)
    15 60 0

/-- `KubernetesClient.wait_for_all_pods_to_start`: poll the pod listing
until every pod is Running with all containers ready; `counter = 60`,
`time.sleep(15)`.  The predicate itself may raise (absent status
collection on a Running pod). -/
def wait_for_all_pods_to_start (podLists : Nat → List Pod) : PollStats :=
  pollLoopE (fun i => pods_all_running (podLists i)) 15 60 0

/-- `KubernetesClient.wait_for_all_pods_to_terminate`: poll until the pod
listing is empty; `counter = 60`, `time.sleep(15)`. -/
def wait_for_all_pods_to_terminate (podLists : Nat → List Pod) : PollStats :=
  pollLoopE (fun i => some (podLists i).isEmpty) 15 60 0

/-- `KubernetesClient._get_name_actual_desired`: select columns by
resource kind.  For a deployment row, `actual/expected` come from the
single `m/n` field at column 1; for a replicaset row, `actual` is column 2
and `expected` is column 1.  Missing columns or non-numeric fields raise
in Python, modelled by `none` (as is any other kind, where the locals
would be unbound). -/
def _get_name_actual_desired (output_line : List String)
    (api_resource : String) : Option (String × Int × Int) :=
  if api_resource = "deployment" then
    match output_line.get? 0, output_line.get? 1 with
    | some name, some field =>
      let parts := pySplitOn ('/') field
      match parts.get? 0, parts.get? 1 with
      | some a, some e =>
        match pyInt a, pyInt e with
        | some actual, some expected => some (name, actual, expected)
        | _, _ => none
      | _, _ => none
    | _, _ => none
  else if api_resource = "replicaset" then
    match output_line.get? 0, output_line.get? 2, output_line.get? 1 with
    | some name, some a, some e =>
      match pyInt a, pyInt e with
      | some actual, some expected => some (name, actual, expected)
      | _, _ => none
    | _, _, _ => none
  else none

/-- Result of one pass of the `for resource in response` loop in
`wait_for_all_api_resources`: the pass either completes with the final
converged-resource count, breaks at the first non-converged resource, or
raises while parsing a row. -/
inductive PassOut
  | done (count : Nat)
  | broke
  | err
deriving DecidableEq

/-- One pass of the row loop: parse each row with the call's kind, stop at
the first row with `actual != expected`, incrementing `count` for each
converged row. -/
def runPassC (api_resource : String) : List (List String) → Nat → PassOut
  | [], count => PassOut.done count
  | r :: rest, count =>
    match _get_name_actual_desired r api_resource with
    | none => PassOut.err
    | some (_, actual, expected) =>
      if actual ≠ expected then PassOut.broke
      else runPassC api_resource rest (count + 1)

/-- A row counts as converged when it parses under the given kind and its
actual count equals its desired count. -/
def rowConverged (api_resource : String) (r : List String) : Bool :=
  match _get_name_actual_desired r api_resource with
  | some (_, a, e) => a == e
  | none => false

/-- Rows of one `kubectl get <kind> --no-headers` output:
`splitlines()` then whitespace-`split()` per line. -/
def rows_of_output (s : String) : List (List String) :=
  (pySplitLines s).map pySplitWs

/-- The `while True` loop of `KubernetesClient.wait_for_all_api_resources`.
State: `attempt` (starts at 1, incremented on every non-converged pass,
raising `TimeoutError` as soon as it exceeds `retries`, before any sleep)
and `count` (the running converged count, reset to 0 when a pass breaks);
the loop returns when a completed pass makes `count` equal the number of
listed rows.  `listings i` is the raw stdout of the i-th `kubectl get`.
`gas` is pure recursion fuel: from any reachable loop head `count = 0`, so
a completed pass returns immediately and at most `retries` iterations
occur; `diverged` marks only the unreachable out-of-fuel branch. -/
def apiLoop (api_resource : String) (listings : Nat → String)
    (slp retries : Nat) : Nat → Nat → Nat → Nat → PollStats
  | gas, attempt, count, i =>
    let rows := rows_of_output (listings i)
    let total := rows.length
    match runPassC api_resource rows count with
    | PassOut.err => ⟨1, [], PollOutcome.errored⟩
    | PassOut.done c =>
      if c = total then ⟨1, [], PollOutcome.ok⟩
      else
        match gas with
        | 0 => ⟨1, [], PollOutcome.diverged⟩
        | g + 1 =>
          let r := apiLoop api_resource listings slp retries g attempt c (i + 1)
          ⟨r.evals + 1, r.sleeps, r.outcome⟩
    | PassOut.broke =>
      if attempt + 1 > retries then ⟨1, [], PollOutcome.timedOut⟩
      else
        match gas with
        | 0 => ⟨1, [], PollOutcome.diverged⟩
        | g + 1 =>
          let r := apiLoop api_resource listings slp retries g (attempt + 1) 0 (i + 1)
          ⟨r.evals + 1, slp :: r.sleeps, r.outcome⟩

/-- `wait_for_all_api_resources(namespace, api_resource, sleep, retries)`
with explicit sleep and retry arguments: enter the loop with
`attempt = 1`, `count = 0` (fuel `retries` covers every reachable run). -/
def wait_for_all_api_resources_with (listings : Nat → String)
    (api_resource : String) (slp retries : Nat) : PollStats :=
  apiLoop api_resource listings slp retries retries 1 0 0

/-- `wait_for_all_api_resources` at its declared defaults
`sleep=15, retries=20`. -/
def wait_for_all_api_resources (listings : Nat → String)
    (api_resource : String) : PollStats :=
  wait_for_all_api_resources_with listings api_resource 15 20

/-- The three waits composed by `KubernetesClient.wait_for_all_resources`. -/
inductive WaitStep
  | pods
  | api (api_resource : String)
deriving DecidableEq

/-- `KubernetesClient.wait_for_all_resources`: run the pod-readiness wait,
then the replicaset wait, then the deployment wait; an exception from any
wait propagates, so a later wait runs only after the earlier one returned
normally.  The first component lists the waits that actually ran. -/
def wait_for_all_resources (podLists : Nat → List Pod)
    (rsListings depListings : Nat → String) : List WaitStep × PollOutcome :=
  let r1 := wait_for_all_pods_to_start podLists
  match r1.outcome with
  | PollOutcome.ok =>
    let r2 := wait_for_all_api_resources rsListings ("replicaset")
    match r2.outcome with
    | PollOutcome.ok =>
      let r3 := wait_for_all_api_resources depListings ("deployment")
      ([WaitStep.pods, WaitStep.api ("replicaset"),
        WaitStep.api ("deployment")], r3.outcome)
    | o => ([WaitStep.pods, WaitStep.api ("replicaset")], o)
  | o => ([WaitStep.pods], o)

/-- What one external command run produced: exit code and captured
standard output and error. -/
structure CmdOutcome where
  exitCode : Int
  std_out : String
  std_err : String
deriving DecidableEq

/-- Log events emitted by `execute_command`. -/
inductive LogEvent
  | invoked (cmd : String)
  | failedLog (std_err : String)
  | successLog (std_out : String)
deriving DecidableEq

/-- `execute_command`: run the command once; on a non-zero return code log
the captured stderr and raise (the `ValueError` the spec names
`CommandExecutionError`); on a zero return code log and return the
captured stdout.  Returns the log events alongside the result. -/
def execute_command (command : String) (c : CmdOutcome) :
    List LogEvent × Except Err String :=
  if c.exitCode ≠ 0 then
    ([LogEvent.invoked command, LogEvent.failedLog c.std_err],
     Except.error (Err.commandExecutionError
       ("Command return unexpected error code: -1")))
  else
    ([LogEvent.invoked command, LogEvent.successLog c.std_out],
     Except.ok c.std_out)

/-- Number of command invocations recorded in a log. -/
def invokedCount (l : List LogEvent) : Nat :=
  l.countP (fun e =>
    match e with
    | LogEvent.invoked _ => true
    | _ => false)

/-- `helm_install_chart_from_repo`: repo-add, then repo-update, then the
versioned install, each through `execute_command`, so a failure of any
step raises before the next command is built or run.  `r1 r2 r3` are the
results of the three successive command executions; the first component is
the list of commands actually issued, in order. -/
def helm_install_chart_from_repo (r1 r2 r3 : Except Err String)
    (helm_repo chart_name chart_version release_name
     target_namespace_name : String) : List String × Except Err Unit :=
  let c1 := "helm repo add --home=$HOME/.helm --debug BASELINE " ++ helm_repo
  match r1 with
  | Except.error e => ([c1], Except.error e)
  | Except.ok _ =>
    let c2 := "helm repo update"
    match r2 with
    | Except.error e => ([c1, c2], Except.error e)
    | Except.ok _ =>
      let c3 := "helm install --home=$HOME/.helm   --debug --namespace=" ++
        target_namespace_name ++ "     BASELINE/" ++ chart_name ++
        "   --version=" ++ chart_version ++ "  --wait --timeout 20000s" ++
        "  --name=" ++ release_name
      match r3 with
      | Except.error e => ([c1, c2, c3], Except.error e)
      | Except.ok _ => ([c1, c2, c3], Except.ok ())

/-- `helm_upgrade_with_chart_archive`: list the deployed releases filtered
by the baseline name, rstrip the output, and require it to be non-empty
and equal to the baseline name; otherwise raise the precondition error
without building or running the upgrade command.  `lsResult` is the result
of the listing command, `upgradeResult` that of the upgrade command when
reached; the first component is the list of commands actually issued. -/
def helm_upgrade_with_chart_archive (lsResult upgradeResult : Except Err String)
    (baseline_release_name chart_archive target_namespace_name : String) :
    List String × Except Err Unit :=
  let lsCmd := "helm ls --deployed " ++ baseline_release_name ++
    "  --namespace=" ++ target_namespace_name ++ " -q"
  match lsResult with
  | Except.error e => ([lsCmd], Except.error e)
  | Except.ok out =>
    let release_name := pyRstrip out
    if release_name = "" ∨ release_name ≠ baseline_release_name then
      ([lsCmd], Except.error (Err.preconditionError
        ("Unable to find expected baseline release: " ++ baseline_release_name)))
    else
      let upCmd := "helm upgrade " ++ baseline_release_name ++ " " ++
        chart_archive ++ " --namespace " ++ target_namespace_name ++
        " --debug --wait     --timeout 20000"
      match upgradeResult with
      | Except.error e => ([lsCmd, upCmd], Except.error e)
      | Except.ok _ => ([lsCmd, upCmd], Except.ok ())

/-- The phases sequenced at the bottom of `main`. -/
inductive Phase
  | setupPhase
  | installTest
  | upgradeTest
  | teardown
deriving DecidableEq

/-- The phase sequencing at the bottom of `main`:
`test_setup(); test_install(); if not skip: test_upgrade(); test_teardown()`
with no exception handler anywhere, so the first phase that raises aborts
the run and no later phase executes.  Each `r` argument is the outcome of
the corresponding phase body when it runs; the first component lists the
phases that actually ran. -/
def main_phases (skip_upgrade_test : Bool)
    (rSetup rInstall rUpgrade rTeardown : Except Err Unit) :
    List Phase × Except Err Unit :=
  match rSetup with
  | Except.error e => ([Phase.setupPhase], Except.error e)
  | Except.ok _ =>
    match rInstall with
    | Except.error e => ([Phase.setupPhase, Phase.installTest], Except.error e)
    | Except.ok _ =>
      if skip_upgrade_test then
        ([Phase.setupPhase, Phase.installTest, Phase.teardown], rTeardown)
      else
        match rUpgrade with
        | Except.error e =>
          ([Phase.setupPhase, Phase.installTest, Phase.upgradeTest],
           Except.error e)
        | Except.ok _ =>
          ([Phase.setupPhase, Phase.installTest, Phase.upgradeTest,
            Phase.teardown], rTeardown)

/-! Helper lemmas about the generic counter loop and the api-resources
loop.  These are shared by the claim theorems below. -/

theorem pollLoopE_never (pred : Nat → Option Bool) (delay : Nat)
    (h : ∀ j, pred j = some false) :
    ∀ (counter i : Nat), pollLoopE pred delay counter i =
      ⟨counter + 1, List.replicate counter delay, PollOutcome.timedOut⟩ := by
  intro counter
  induction counter with
  | zero =>
    intro i
    simp [pollLoopE, h i]
  | succ c ih =>
    intro i
    simp [pollLoopE, h i, ih (i + 1), List.replicate_succ]

theorem pollLoopE_first (pred : Nat → Option Bool) (delay : Nat) :
    ∀ (k counter i : Nat), k ≤ counter →
      (∀ j, j < k → pred (i + j) = some false) →
      pred (i + k) = some true →
      pollLoopE pred delay counter i =
        ⟨k + 1, List.replicate k delay, PollOutcome.ok⟩ := by
  intro k
  induction k with
  | zero =>
    intro counter i _ _ htrue
    have h0 : pred i = some true := by simpa using htrue
    cases counter <;> simp [pollLoopE, h0]
  | succ k ih =>
    intro counter i hk hlt htrue
    have h0 : pred i = some false := by simpa using hlt 0 (Nat.succ_pos k)
    rcases counter with _ | c
    · omega
    · have hlt' : ∀ j, j < k → pred (i + 1 + j) = some false := by
        intro j hj
        have heq : i + 1 + j = i + (j + 1) := by omega
        rw [heq]
        exact hlt (j + 1) (by omega)
      have htrue' : pred (i + 1 + k) = some true := by
        have heq : i + 1 + k = i + (k + 1) := by omega
        rw [heq]
        exact htrue
      have hrec := ih c (i + 1) (by omega) hlt' htrue'
      simp [pollLoopE, h0, hrec, List.replicate_succ]

theorem runPassC_done (kind : String) :
    ∀ (rows : List (List String)) (count c : Nat),
      runPassC kind rows count = PassOut.done c → c = count + rows.length := by
  intro rows
  induction rows with
  | nil =>
    intro count c h
    simp [runPassC] at h
    simp [h]
  | cons r rest ih =>
    intro count c h
    rcases hp : _get_name_actual_desired r kind with _ | ⟨nm, a, e⟩
    · simp [runPassC, hp] at h
    · simp only [runPassC, hp] at h
      by_cases hae : a ≠ e
      · simp [hae] at h
      · simp [hae] at h
        have := ih (count + 1) c h
        simp [List.length_cons]
        omega

theorem runPassC_done_iff (kind : String) :
    ∀ (rows : List (List String)) (count : Nat),
      runPassC kind rows count = PassOut.done (count + rows.length) ↔
        rows.all (rowConverged kind) = true := by
  intro rows
  induction rows with
  | nil =>
    intro count
    simp [runPassC]
  | cons r rest ih =>
    intro count
    rcases hp : _get_name_actual_desired r kind with _ | ⟨nm, a, e⟩
    · simp [runPassC, hp, rowConverged]
    · by_cases hae : a = e
      · have harith : count + (r :: rest).length = (count + 1) + rest.length := by
          simp [List.length_cons]
          omega
        rw [harith]
        simp [runPassC, hp, hae, rowConverged, List.all_cons, ih (count + 1)]
      · simp [runPassC, hp, hae, rowConverged, List.all_cons]

theorem apiLoop_never (kind : String) (L : Nat → String) (slp retries : Nat)
    (h : ∀ i, runPassC kind (rows_of_output (L i)) 0 = PassOut.broke) :
    ∀ (gas attempt i : Nat), 1 ≤ attempt → attempt ≤ retries →
      retries - attempt ≤ gas →
      apiLoop kind L slp retries gas attempt 0 i =
        ⟨retries + 1 - attempt, List.replicate (retries - attempt) slp,
         PollOutcome.timedOut⟩ := by
  intro gas
  induction gas with
  | zero =>
    intro attempt i h1 h2 h3
    have hat : attempt = retries := by omega
    subst hat
    simp [apiLoop, h i, show attempt + 1 > attempt by omega]
  | succ g ih =>
    intro attempt i h1 h2 h3
    by_cases hlast : attempt = retries
    · subst hlast
      simp [apiLoop, h i, show attempt + 1 > attempt by omega]
    · have hif : ¬ (attempt + 1 > retries) := by omega
      have hrec := ih (attempt + 1) (i + 1) (by omega) (by omega) (by omega)
      simp [apiLoop, h i, hif, hrec]
      constructor
      · omega
      · rw [show retries - attempt = (retries - (attempt + 1)) + 1 by omega,
            List.replicate_succ]

theorem apiLoop_first (kind : String) (L : Nat → String) (slp retries : Nat) :
    ∀ (k gas attempt i : Nat),
      (∀ j, j < k → runPassC kind (rows_of_output (L (i + j))) 0 = PassOut.broke) →
      (∃ t, runPassC kind (rows_of_output (L (i + k))) 0 = PassOut.done t) →
      attempt + k ≤ retries → k ≤ gas →
      apiLoop kind L slp retries gas attempt 0 i =
        ⟨k + 1, List.replicate k slp, PollOutcome.ok⟩ := by
  intro k
  induction k with
  | zero =>
    intro gas attempt i _ hdone _ _
    obtain ⟨t, ht⟩ := hdone
    have ht' : runPassC kind (rows_of_output (L i)) 0 = PassOut.done t := by
      simpa using ht
    have hlen := runPassC_done kind _ 0 t ht'
    have hlen' : t = (rows_of_output (L i)).length := by omega
    subst hlen'
    rw [apiLoop.eq_def]
    simp [ht']
  | succ k ih =>
    intro gas attempt i hlt hdone hk hgas
    have h0 : runPassC kind (rows_of_output (L i)) 0 = PassOut.broke := by
      simpa using hlt 0 (Nat.succ_pos k)
    rcases gas with _ | g
    · omega
    · have hif : ¬ (attempt + 1 > retries) := by omega
      have hlt' : ∀ j, j < k →
          runPassC kind (rows_of_output (L (i + 1 + j))) 0 = PassOut.broke := by
        intro j hj
        have heq : i + 1 + j = i + (j + 1) := by omega
        rw [heq]
        exact hlt (j + 1) (by omega)
      have hdone' : ∃ t,
          runPassC kind (rows_of_output (L (i + 1 + k))) 0 = PassOut.done t := by
        have heq : i + 1 + k = i + (k + 1) := by omega
        rw [heq]
        exact hdone
      have hrec := ih g (attempt + 1) (i + 1) hlt' hdone' (by omega) (by omega)
      simp [apiLoop, h0, hif, hrec, List.replicate_succ]

/-! Claim theorems. -/

/-- C1 (counterexample): the claim asserts that every one of the five waits
evaluates its predicate exactly budget.retries + 1 times before timing
out.  For the wait-for-scaled-resource-ready wait (retries = 20) with a
listing that never converges, the predicate is evaluated exactly 20 times
(= retries), not 21. -/
theorem c1_counterexample :
    (wait_for_all_api_resources (fun _ => ("worker 1/2\n")) ("deployment")).evals
      = 20 ∧
    (wait_for_all_api_resources (fun _ => ("worker 1/2\n")) ("deployment")).evals
      ≠ 20 + 1 := by
  constructor
  · decide
  · decide

/-- C1 (amended): the four counter-based waits (deployed-release,
namespace-deleted, pods-running, pods-terminated) evaluate their predicate
exactly budget.retries + 1 times (21, 61, 61, 61) before TimeoutError,
sleeping budget.delay = 15 between consecutive evaluations, and return
success after exactly k evaluations when the predicate first holds on
evaluation k (1-indexed, k ≤ retries + 1); the scaled-resource wait
instead evaluates exactly retries = 20 times before TimeoutError (still
sleeping 15 between consecutive evaluations) and returns success after
exactly k evaluations when its batch first converges on evaluation k
(1-indexed, k ≤ retries). -/
theorem c1_amended_poll_counts :
    (∀ (lsOut : Nat → String) (expected : String),
      ((∀ i, (pyRstrip (lsOut i) == expected) = false) →
        helm_wait_for_deployed_release_to_appear lsOut expected =
          ⟨21, List.replicate 20 15, PollOutcome.timedOut⟩) ∧
      (∀ k, k ≤ 20 → (∀ j, j < k → (pyRstrip (lsOut j) == expected) = false) →
        (pyRstrip (lsOut k) == expected) = true →
        helm_wait_for_deployed_release_to_appear lsOut expected =
          ⟨k + 1, List.replicate k 15, PollOutcome.ok⟩)) ∧
    (∀ (nss : Nat → List String) (nm : String),
      ((∀ i, (find_namespace (nss i) nm).isNone = false) →
        wait_for_namespace_to_be_deleted nss nm =
          ⟨61, List.replicate 60 15, PollOutcome.timedOut⟩) ∧
      (∀ k, k ≤ 60 → (∀ j, j < k → (find_namespace (nss j) nm).isNone = false) →
        (find_namespace (nss k) nm).isNone = true →
        wait_for_namespace_to_be_deleted nss nm =
          ⟨k + 1, List.replicate k 15, PollOutcome.ok⟩)) ∧
    (∀ (podLists : Nat → List Pod),
      ((∀ i, pods_all_running (podLists i) = some false) →
        wait_for_all_pods_to_start podLists =
          ⟨61, List.replicate 60 15, PollOutcome.timedOut⟩) ∧
      (∀ k, k ≤ 60 → (∀ j, j < k → pods_all_running (podLists j) = some false) →
        pods_all_running (podLists k) = some true →
        wait_for_all_pods_to_start podLists =
          ⟨k + 1, List.replicate k 15, PollOutcome.ok⟩)) ∧
    (∀ (podLists : Nat → List Pod),
      ((∀ i, (podLists i).isEmpty = false) →
        wait_for_all_pods_to_terminate podLists =
          ⟨61, List.replicate 60 15, PollOutcome.timedOut⟩) ∧
      (∀ k, k ≤ 60 → (∀ j, j < k → (podLists j).isEmpty = false) →
        (podLists k).isEmpty = true →
        wait_for_all_pods_to_terminate podLists =
          ⟨k + 1, List.replicate k 15, PollOutcome.ok⟩)) ∧
    (∀ (listings : Nat → String) (kind : String),
      ((∀ i, runPassC kind (rows_of_output (listings i)) 0 = PassOut.broke) →
        wait_for_all_api_resources listings kind =
          ⟨20, List.replicate 19 15, PollOutcome.timedOut⟩) ∧
      (∀ k, k ≤ 19 →
        (∀ j, j < k → runPassC kind (rows_of_output (listings j)) 0 = PassOut.broke) →
        (∃ t, runPassC kind (rows_of_output (listings k)) 0 = PassOut.done t) →
        wait_for_all_api_resources listings kind =
          ⟨k + 1, List.replicate k 15, PollOutcome.ok⟩)) := by
  refine ⟨?_, ?_, ?_, ?_, ?_⟩
  · intro lsOut expected
    constructor
    · intro h
      exact pollLoopE_never _ 15 (fun j => by rw [h j]) 20 0
    · intro k hk hlt htrue
      exact pollLoopE_first _ 15 k 20 0 hk
        (fun j hj => by rw [Nat.zero_add, hlt j hj])
        (by rw [Nat.zero_add, htrue])
  · intro nss nm
    constructor
    · intro h
      exact pollLoopE_never _ 15 (fun j => by rw [h j]) 60 0
    · intro k hk hlt htrue
      exact pollLoopE_first _ 15 k 60 0 hk
        (fun j hj => by rw [Nat.zero_add, hlt j hj])
        (by rw [Nat.zero_add, htrue])
  · intro podLists
    constructor
    · intro h
      exact pollLoopE_never _ 15 (fun j => h j) 60 0
    · intro k hk hlt htrue
      exact pollLoopE_first _ 15 k 60 0 hk
        (fun j hj => by rw [Nat.zero_add]; exact hlt j hj)
        (by rw [Nat.zero_add]; exact htrue)
  · intro podLists
    constructor
    · intro h
      exact pollLoopE_never _ 15 (fun j => by rw [h j]) 60 0
    · intro k hk hlt htrue
      exact pollLoopE_first _ 15 k 60 0 hk
        (fun j hj => by rw [Nat.zero_add, hlt j hj])
        (by rw [Nat.zero_add, htrue])
  · intro listings kind
    constructor
    · intro h
      have hnever := apiLoop_never kind listings 15 20 h 20 1 0
        (by omega) (by omega) (by omega)
      simpa [wait_for_all_api_resources, wait_for_all_api_resources_with]
        using hnever
    · intro k hk hlt hdone
      have hfirst := apiLoop_first kind listings 15 20 k 20 1 0
        (fun j hj => by rw [Nat.zero_add]; exact hlt j hj)
        (by rw [Nat.zero_add]; exact hdone)
        (by omega) (by omega)
      simpa [wait_for_all_api_resources, wait_for_all_api_resources_with]
        using hfirst

/-- C1 (witness): concrete runs exercising the amended statement: the
deployed-release wait times out after exactly 21 evaluations with 20
sleeps of 15 and succeeds after 3 evaluations when the name first matches
on the third listing; the scaled-resource wait times out after exactly 20
evaluations with 19 sleeps of 15 and succeeds after 3 evaluations when the
batch first converges on the third listing. -/
theorem c1_witness :
    helm_wait_for_deployed_release_to_appear (fun _ => ("other\n")) ("rel") =
      ⟨21, List.replicate 20 15, PollOutcome.timedOut⟩ ∧
    helm_wait_for_deployed_release_to_appear
        (fun i => if i < 2 then ("") else ("rel\n")) ("rel") =
      ⟨3, List.replicate 2 15, PollOutcome.ok⟩ ∧
    wait_for_all_api_resources (fun _ => ("worker 1/2\n")) ("deployment") =
      ⟨20, List.replicate 19 15, PollOutcome.timedOut⟩ ∧
    wait_for_all_api_resources
        (fun i => if i < 2 then ("worker 1/2\n") else ("worker 2/2\n"))
        ("deployment") =
      ⟨3, List.replicate 2 15, PollOutcome.ok⟩ := by
  refine ⟨?_, ?_, ?_, ?_⟩
  · exact (c1_amended_poll_counts.1 (fun _ => ("other\n")) ("rel")).1
      (fun i => by decide)
  · exact (c1_amended_poll_counts.1
        (fun i => if i < 2 then ("") else ("rel\n")) ("rel")).2 2 (by omega)
      (fun j hj => by rw [if_pos hj]; decide)
      (by decide)
  · exact (c1_amended_poll_counts.2.2.2.2
        (fun _ => ("worker 1/2\n")) ("deployment")).1 (fun i => by decide)
  · exact (c1_amended_poll_counts.2.2.2.2
        (fun i => if i < 2 then ("worker 1/2\n") else ("worker 2/2\n"))
        ("deployment")).2 2 (by omega)
      (fun j hj => by rw [if_pos hj]; decide)
      ⟨1, by decide⟩

/-- C2 (counterexample): the claim asserts the pod-readiness predicate is
false for the pod list with a second Running pod whose container-status
collection is empty.  On the code, `all` over the empty per-container list
is vacuously true, so the predicate evaluates to true (and not to false)
at exactly that input. -/
theorem c2_counterexample :
    pods_all_running
        [⟨("Running"), some [⟨true⟩]⟩, ⟨("Running"), some []⟩] = some true ∧
    pods_all_running
        [⟨("Running"), some [⟨true⟩]⟩, ⟨("Running"), some []⟩] ≠ some false := by
  constructor
  · rfl
  · decide

/-- C2 (amended): a Running pod whose container-status collection is the
empty list counts as ready (the per-pod readiness term is the vacuous
`all` of its container ready flags), so the claimed pod list makes the
predicate true, not false; a Running pod whose container-status collection
is absent (None) makes the predicate evaluation raise rather than return
false, while a non-Running pod counts as not-ready without raising even
when its collection is absent. -/
theorem c2_amended_empty_statuses :
    pods_all_running
        [⟨("Running"), some [⟨true⟩]⟩, ⟨("Running"), some []⟩] = some true ∧
    (∀ phase, pods_all_running [⟨phase, none⟩] =
      if phase = "Running" then none else some false) ∧
    (∀ css, pods_all_running [⟨("Running"), some css⟩] =
      some (css.all (fun c => c.ready))) := by
  refine ⟨by rfl, ?_, ?_⟩
  · intro phase
    by_cases h : phase = "Running" <;>
      simp [pods_all_running, pods_ready_list, pod_ready_flag, h]
  · intro css
    simp [pods_all_running, pods_ready_list, pod_ready_flag]

/-- C3: convergence of the scaled-resource wait requires actual = desired
for every listed row: a pass over the claimed example rows (app 2/2,
worker 1/2) breaks regardless of the incoming converged count; a pass
returns its full count exactly when every row of the fresh listing is
converged (so previously converged rows are re-checked each attempt); a
pass that breaks re-enters the loop on the next listing with the
converged-count reset to 0 and the attempt counter incremented, whatever
the count was; and the wait runs with the per-kind budget sleep = 15,
retries = 20, starting its own attempt counter at 1. -/
theorem c3_batch_reconverge :
    (∀ count, runPassC ("deployment")
        [[("app"), ("2/2")], [("worker"), ("1/2")]] count = PassOut.broke) ∧
    (∀ (kind : String) (rows : List (List String)) (count : Nat),
      runPassC kind rows count = PassOut.done (count + rows.length) ↔
        rows.all (rowConverged kind) = true) ∧
    (∀ (kind : String) (L : Nat → String) (slp retries g attempt count i : Nat),
      runPassC kind (rows_of_output (L i)) count = PassOut.broke →
      attempt + 1 ≤ retries →
      apiLoop kind L slp retries (g + 1) attempt count i =
        ⟨(apiLoop kind L slp retries g (attempt + 1) 0 (i + 1)).evals + 1,
         slp :: (apiLoop kind L slp retries g (attempt + 1) 0 (i + 1)).sleeps,
         (apiLoop kind L slp retries g (attempt + 1) 0 (i + 1)).outcome⟩) ∧
    (∀ (L : Nat → String) (kind : String),
      wait_for_all_api_resources L kind = apiLoop kind L 15 20 20 1 0 0) := by
  refine ⟨?_, ?_, ?_, ?_⟩
  · intro count
    rfl
  · intro kind rows count
    exact runPassC_done_iff kind rows count
  · intro kind L slp retries g attempt count i hbroke hle
    rw [apiLoop.eq_def]
    simp only [hbroke]
    rw [if_neg (by omega)]
  · intro L kind
    rfl

/-- C3 (witness): a concrete broken pass (the claimed example rows, with a
stale incoming count of 5 and attempt 1 of 20) re-enters the loop on the
next listing with count reset to 0 and attempt set to 2. -/
theorem c3_witness :
    apiLoop ("deployment") (fun _ => ("app 2/2\nworker 1/2\n")) 15 20 4 1 5 0 =
      ⟨(apiLoop ("deployment") (fun _ => ("app 2/2\nworker 1/2\n"))
          15 20 3 2 0 1).evals + 1,
       15 :: (apiLoop ("deployment") (fun _ => ("app 2/2\nworker 1/2\n"))
          15 20 3 2 0 1).sleeps,
       (apiLoop ("deployment") (fun _ => ("app 2/2\nworker 1/2\n"))
          15 20 3 2 0 1).outcome⟩ :=
  c3_batch_reconverge.2.2.1 ("deployment")
    (fun _ => ("app 2/2\nworker 1/2\n")) 15 20 3 1 5 0 (by decide) (by omega)

/-- C4: when the filtered deployed-release listing succeeds but its
rstripped output is not exactly the baseline name, the upgrade fails with
the precondition error and the only command ever issued is the listing
command (the upgrade command is never invoked); and whenever the upgrade
command is issued (the issued-command trace has a second entry), the
listing output matched the baseline name exactly (and was non-empty). -/
theorem c4_upgrade_precondition :
    ∀ (out : String) (upgradeResult : Except Err String)
      (baseline_release_name chart_archive target_namespace_name : String),
      (pyRstrip out ≠ baseline_release_name →
        helm_upgrade_with_chart_archive (Except.ok out) upgradeResult
            baseline_release_name chart_archive target_namespace_name =
          (["helm ls --deployed " ++ baseline_release_name ++
              "  --namespace=" ++ target_namespace_name ++ " -q"],
           Except.error (Err.preconditionError
             ("Unable to find expected baseline release: " ++
               baseline_release_name)))) ∧
      ((helm_upgrade_with_chart_archive (Except.ok out) upgradeResult
          baseline_release_name chart_archive target_namespace_name).1.length = 2 →
        pyRstrip out = baseline_release_name ∧ pyRstrip out ≠ "") := by
  intro out upgradeResult b a ns
  constructor
  · intro h
    simp only [helm_upgrade_with_chart_archive]
    rw [if_pos (Or.inr h)]
  · intro hlen
    by_cases hcond : pyRstrip out = "" ∨ pyRstrip out ≠ b
    · exfalso
      simp only [helm_upgrade_with_chart_archive] at hlen
      rw [if_pos hcond] at hlen
      simp at hlen
    · push_neg at hcond
      exact ⟨hcond.2, hcond.1⟩

/-- C4 (witness): with listing output that rstrips to a name other than
the baseline, only the listing command is issued and the precondition
error is raised; with an exactly matching listing the issued-command trace
has two entries and the match facts hold. -/
theorem c4_witness :
    helm_upgrade_with_chart_archive (Except.ok ("x\n")) (Except.ok (""))
        ("rel") ("chart.tgz") ("ns") =
      (["helm ls --deployed " ++ ("rel") ++ "  --namespace=" ++ ("ns") ++ " -q"],
       Except.error (Err.preconditionError
         ("Unable to find expected baseline release: " ++ ("rel")))) ∧
    (pyRstrip ("rel\n") = ("rel") ∧ pyRstrip ("rel\n") ≠ ("")) := by
  constructor
  · exact (c4_upgrade_precondition ("x\n") (Except.ok (""))
      ("rel") ("chart.tgz") ("ns")).1 (by decide)
  · exact (c4_upgrade_precondition ("rel\n") (Except.ok (""))
      ("rel") ("chart.tgz") ("ns")).2 (by decide)

/-- C5: the three commands of `helm_install_chart_from_repo` are issued in
the fixed order repo-add, repo-update, versioned install, each fatal on
failure: if the repo-add command fails, the issued-command trace is
exactly the repo-add command (repo-update and install are never invoked)
and the error propagates; if repo-update fails the trace stops after it;
only when both succeed is the install command issued, last. -/
theorem c5_install_from_repo_order :
    ∀ (e e3 : Err) (r2 r3 : Except Err String) (s1 s2 s3 : String)
      (helm_repo chart_name chart_version release_name
        target_namespace_name : String),
      (helm_install_chart_from_repo (Except.error e) r2 r3 helm_repo
          chart_name chart_version release_name target_namespace_name =
        (["helm repo add --home=$HOME/.helm --debug BASELINE " ++ helm_repo],
         Except.error e)) ∧
      (helm_install_chart_from_repo (Except.ok s1) (Except.error e) r3
          helm_repo chart_name chart_version release_name
          target_namespace_name =
        (["helm repo add --home=$HOME/.helm --debug BASELINE " ++ helm_repo,
          "helm repo update"],
         Except.error e)) ∧
      (helm_install_chart_from_repo (Except.ok s1) (Except.ok s2)
          (Except.error e3) helm_repo chart_name chart_version release_name
          target_namespace_name =
        (["helm repo add --home=$HOME/.helm --debug BASELINE " ++ helm_repo,
          "helm repo update",
          "helm install --home=$HOME/.helm   --debug --namespace=" ++
            target_namespace_name ++ "     BASELINE/" ++ chart_name ++
            "   --version=" ++ chart_version ++ "  --wait --timeout 20000s" ++
            "  --name=" ++ release_name],
         Except.error e3)) ∧
      (helm_install_chart_from_repo (Except.ok s1) (Except.ok s2)
          (Except.ok s3) helm_repo chart_name chart_version release_name
          target_namespace_name =
        (["helm repo add --home=$HOME/.helm --debug BASELINE " ++ helm_repo,
          "helm repo update",
          "helm install --home=$HOME/.helm   --debug --namespace=" ++
            target_namespace_name ++ "     BASELINE/" ++ chart_name ++
            "   --version=" ++ chart_version ++ "  --wait --timeout 20000s" ++
            "  --name=" ++ release_name],
         Except.ok ())) := by
  intro e e3 r2 r3 s1 s2 s3 helm_repo chart_name chart_version rn ns
  exact ⟨rfl, rfl, rfl, rfl⟩

/-- C6: the listing parser selects columns by kind and ignores the rest of
the row beyond the columns its kind uses: for kind deployment the result
depends only on columns 0 and 1, reading actual/desired from the single
m/n field (2/2 parses to actual 2, desired 2; 1/2 to actual 1, desired 2);
for kind replicaset only on columns 0, 1 and 2, with actual from column 2
and desired from column 1; and applying one kind's layout to a row shaped
for the other kind does not silently succeed (it raises, modelled none). -/
theorem c6_parser_columns :
    (∀ (name f : String) (rest : List String),
      _get_name_actual_desired (name :: f :: rest) ("deployment") =
        _get_name_actual_desired [name, f] ("deployment")) ∧
    (∀ (name d a : String) (rest : List String),
      _get_name_actual_desired (name :: d :: a :: rest) ("replicaset") =
        _get_name_actual_desired [name, d, a] ("replicaset")) ∧
    _get_name_actual_desired [("app"), ("2/2")] ("deployment") =
      some (("app"), 2, 2) ∧
    _get_name_actual_desired [("worker"), ("1/2")] ("deployment") =
      some (("worker"), 1, 2) ∧
    _get_name_actual_desired [("rs"), ("2"), ("1")] ("replicaset") =
      some (("rs"), 1, 2) ∧
    _get_name_actual_desired [("rs"), ("2"), ("1")] ("deployment") = none ∧
    _get_name_actual_desired [("app"), ("2/2")] ("replicaset") = none := by
  refine ⟨?_, ?_, by decide, by decide, by decide, by decide, by decide⟩
  · intro name f rest
    rfl
  · intro name d a rest
    rfl

/-- C7: `execute_command` runs its command exactly once; on a non-zero
exit code it raises the command-execution error, with the captured stderr
recorded in the failure log entry, and performs no retry (the log holds a
single invocation); on exit code zero it returns the captured stdout
unchanged. -/
theorem c7_execute_command :
    ∀ (command : String) (c : CmdOutcome),
      (c.exitCode ≠ 0 →
        (execute_command command c).2 =
          Except.error (Err.commandExecutionError
            ("Command return unexpected error code: -1")) ∧
        LogEvent.failedLog c.std_err ∈ (execute_command command c).1 ∧
        invokedCount (execute_command command c).1 = 1) ∧
      (c.exitCode = 0 →
        (execute_command command c).2 = Except.ok c.std_out ∧
        invokedCount (execute_command command c).1 = 1) := by
  intro command c
  constructor
  · intro h
    refine ⟨?_, ?_, ?_⟩ <;>
      simp [execute_command, h, invokedCount]
  · intro h
    constructor <;>
      simp [execute_command, h, invokedCount]

/-- C7 (witness): a failing run (exit code 1, stderr e) yields the raised
error with the stderr logged and one invocation; a succeeding run (exit
code 0) returns its stdout with one invocation. -/
theorem c7_witness :
    ((execute_command ("x") ⟨1, ("o"), ("e")⟩).2 =
        Except.error (Err.commandExecutionError
          ("Command return unexpected error code: -1")) ∧
      LogEvent.failedLog (CmdOutcome.mk 1 ("o") ("e")).std_err ∈
        (execute_command ("x") ⟨1, ("o"), ("e")⟩).1 ∧
      invokedCount (execute_command ("x") ⟨1, ("o"), ("e")⟩).1 = 1) ∧
    ((execute_command ("y") ⟨0, ("out"), ("")⟩).2 =
        Except.ok (CmdOutcome.mk 0 ("out") ("")).std_out ∧
      invokedCount (execute_command ("y") ⟨0, ("out"), ("")⟩).1 = 1) :=
  ⟨(c7_execute_command ("x") ⟨1, ("o"), ("e")⟩).1 (by decide),
   (c7_execute_command ("y") ⟨0, ("out"), ("")⟩).2 (by decide)⟩

/-- C8: every run of the composite wait runs the pod-readiness wait first;
the replicaset wait runs only after the pod wait returned ok, and the
deployment wait only after the replicaset wait returned ok; whichever wait
first fails to return ok ends the run with its outcome, so the executed
trace is always the corresponding prefix of
pod-readiness, replicaset, deployment, in that order. -/
theorem c8_composite_order :
    ∀ (podLists : Nat → List Pod) (rsListings depListings : Nat → String),
      ((wait_for_all_pods_to_start podLists).outcome = PollOutcome.ok ∧
        (wait_for_all_api_resources rsListings ("replicaset")).outcome =
          PollOutcome.ok ∧
        wait_for_all_resources podLists rsListings depListings =
          ([WaitStep.pods, WaitStep.api ("replicaset"),
            WaitStep.api ("deployment")],
           (wait_for_all_api_resources depListings ("deployment")).outcome)) ∨
      ((wait_for_all_pods_to_start podLists).outcome = PollOutcome.ok ∧
        (wait_for_all_api_resources rsListings ("replicaset")).outcome ≠
          PollOutcome.ok ∧
        wait_for_all_resources podLists rsListings depListings =
          ([WaitStep.pods, WaitStep.api ("replicaset")],
           (wait_for_all_api_resources rsListings ("replicaset")).outcome)) ∨
      ((wait_for_all_pods_to_start podLists).outcome ≠ PollOutcome.ok ∧
        wait_for_all_resources podLists rsListings depListings =
          ([WaitStep.pods], (wait_for_all_pods_to_start podLists).outcome)) := by
  intro podLists rsListings depListings
  by_cases h1 : (wait_for_all_pods_to_start podLists).outcome = PollOutcome.ok
  · by_cases h2 : (wait_for_all_api_resources rsListings ("replicaset")).outcome
        = PollOutcome.ok
    · exact Or.inl ⟨h1, h2, by simp [wait_for_all_resources, h1, h2]⟩
    · refine Or.inr (Or.inl ⟨h1, h2, ?_⟩)
      rcases h2' : (wait_for_all_api_resources rsListings ("replicaset")).outcome
        with _ | _ | _ | _ <;>
        simp [wait_for_all_resources, h1, h2'] <;>
        exact absurd h2' h2
  · refine Or.inr (Or.inr ⟨h1, ?_⟩)
    rcases h1' : (wait_for_all_pods_to_start podLists).outcome
      with _ | _ | _ | _ <;>
      simp [wait_for_all_resources, h1'] <;>
      exact absurd h1' h1

/-- C9: the phase sequencing of `main` never catches an error: a fatal
error raised in Setup ends the run with only Setup executed; one raised in
Install-Test ends it with Setup and Install-Test executed; one raised in
Upgrade-Test (when it runs) ends it with Setup, Install-Test and
Upgrade-Test executed; in every such case the error propagates unchanged
and Teardown is not among the executed phases. -/
theorem c9_fatal_abort :
    ∀ (skip_upgrade_test : Bool) (e : Err) (rI rU rT : Except Err Unit),
      main_phases skip_upgrade_test (Except.error e) rI rU rT =
        ([Phase.setupPhase], Except.error e) ∧
      main_phases skip_upgrade_test (Except.ok ()) (Except.error e) rU rT =
        ([Phase.setupPhase, Phase.installTest], Except.error e) ∧
      main_phases false (Except.ok ()) (Except.ok ()) (Except.error e) rT =
        ([Phase.setupPhase, Phase.installTest, Phase.upgradeTest],
         Except.error e) ∧
      Phase.teardown ∉
        [Phase.setupPhase, Phase.installTest, Phase.upgradeTest] := by
  intro skip_upgrade_test e rI rU rT
  exact ⟨rfl, rfl, rfl, by decide⟩

/-- C10: if the first scaled-resource listing splits into zero lines, the
wait returns success after that single evaluation, with no sleep and no
further listing (an empty listing is vacuously converged). -/
theorem c10_empty_listing_success :
    ∀ (listings : Nat → String) (api_resource : String),
      pySplitLines (listings 0) = [] →
      wait_for_all_api_resources listings api_resource =
        ⟨1, [], PollOutcome.ok⟩ := by
  intro listings api_resource h
  show apiLoop api_resource listings 15 20 20 1 0 0 = ⟨1, [], PollOutcome.ok⟩
  rw [apiLoop.eq_def]
  simp [rows_of_output, h, runPassC]

/-- C10 (witness): an empty first listing (empty stdout) makes the
deployment wait succeed after one evaluation with no sleeps. -/
theorem c10_witness :
    wait_for_all_api_resources (fun _ => ("")) ("deployment") =
      ⟨1, [], PollOutcome.ok⟩ :=
  c10_empty_listing_success (fun _ => ("")) ("deployment") (by decide)
